import Mathlib

/-!
Shallow embedding of `tools/corpora.py`: a registry-driven dataset
downloader.  Filesystem state is passed in as predicates (`isDir`,
`isFile`); every external command the Python code issues through
`os.system` or `os.makedirs` is recorded as an `Effect` in a trace, in
the order the code would issue it.  The `DATA_DIR` environment variable
is modelled as unset, so the default data directory is the literal
`"./data"` (the Python default).
-/

namespace Corpora

/-- One observable side effect of the program.
`makedirs p ok` embeds `os.makedirs(p, exist_ok=ok)`;
`fetch url dest` embeds `os.system(f"wget {url} -O {dest}")`;
`system cmd` embeds `os.system(cmd)` for the tokenizer command line. -/
inductive Effect where
  | makedirs (path : String) (existOk : Bool)
  | fetch (url : String) (dest : String)
  | system (cmd : String)
  deriving DecidableEq, Repr

/-- Tests whether an effect is an external fetch (`wget`) invocation. -/
def Effect.isFetch : Effect → Bool
  | .fetch _ _ => true
  | _ => false

/-- Embeds `os.path.basename` for POSIX paths: everything after the last
slash (the whole string when no slash occurs). -/
def basename (p : String) : String :=
  ⟨(p.data.reverse.takeWhile (fun c => c ≠ '/')).reverse⟩

/-- Embeds the two-argument `os.path.join` for POSIX paths: if `b` is
absolute it wins; otherwise `b` is appended to `a`, inserting a slash
unless `a` is empty or already ends with one. -/
def joinPath (a b : String) : String :=
  if b.data.head? = some '/' then b
  else if a.data = [] ∨ a.data.getLast? = some '/' then a ++ b
  else a ++ "/" ++ b

/-- Embeds Python `str.lower()` (restricted to the ASCII case mapping,
which covers every string this program compares). -/
def strToLower (s : String) : String := ⟨s.data.map Char.toLower⟩

/-- Embeds Python `str.upper()` (restricted to the ASCII case mapping). -/
def strToUpper (s : String) : String := ⟨s.data.map Char.toUpper⟩

/-- Embeds Python `sep.join(xs)`. -/
def strJoin (sep : String) : List String → String
  | [] => ""
  | [x] => x
  | x :: y :: xs => x ++ sep ++ strJoin sep (y :: xs)

/-- Embeds `DEFAULT_DATA_DIR = os.environ.get('DATA_DIR', './data')`
with the `DATA_DIR` environment variable unset. -/
def DEFAULT_DATA_DIR : String := "./data"

/-- Embeds `DEFAULT_TOKENIZER_TYPE`. -/
def DEFAULT_TOKENIZER_TYPE : String := "GPT2BPETokenizer"

/-- Embeds `GPT2_VOCAB_FP`. -/
def GPT2_VOCAB_FP : String := DEFAULT_DATA_DIR ++ "/gpt2-vocab.json"

/-- Embeds `GPT2_VOCAB_URL`. -/
def GPT2_VOCAB_URL : String :=
  "https://s3.amazonaws.com/models.huggingface.co/bert/gpt2-vocab.json"

/-- Embeds `GPT2_MERGE_FP`. -/
def GPT2_MERGE_FP : String := DEFAULT_DATA_DIR ++ "/gpt2-merges.txt"

/-- Embeds `GPT2_MERGE_URL`. -/
def GPT2_MERGE_URL : String :=
  "https://s3.amazonaws.com/models.huggingface.co/bert/gpt2-merges.txt"

/-- The data each `DataDownloader` subclass contributes: the class
attributes `name`, `urls`, and (only for `Enron`) `num_docs`; the base
class property `num_docs` returns `None`, embedded as `none`. -/
structure Dataset where
  name : String
  urls : List String
  numDocs : Option Nat
  deriving DecidableEq, Repr

/-- Embeds class `Enron` (`num_docs = 517401`). -/
def Enron : Dataset :=
  ⟨"enron", ["http://eaidata.bmk.sh/data/enron_emails.jsonl.zst"], some 517401⟩

/-- Embeds class `PileSubset`. -/
def PileSubset : Dataset :=
  ⟨"pile_00", ["https://the-eye.eu/public/AI/pile/train/00.jsonl.zst"], none⟩

/-- Embeds Python `f"{i:02}"` for the Pile shard indices (0 ≤ i ≤ 99). -/
def formatTwoDigit (i : Nat) : String :=
  if i < 10 then "0" ++ toString i else toString i

/-- Embeds class `Pile`: thirty shard URLs numbered `00` to `29`. -/
def Pile : Dataset :=
  ⟨"pile",
   (List.range 30).map
     (fun i => "https://the-eye.eu/public/AI/pile/train/" ++ formatTwoDigit i ++ ".jsonl.zst"),
   none⟩

/-- Embeds class `Github`. -/
def Github : Dataset :=
  ⟨"github", ["http://eaidata.bmk.sh/data/github_small.jsonl.zst"], none⟩

/-- Embeds class `ArXiv`. -/
def ArXiv : Dataset :=
  ⟨"arxiv",
   ["https://the-eye.eu/public/AI/pile_preliminary_components/2020-09-08-arxiv-extracts-nofallback-until-2007-068.tar.gz"],
   none⟩

/-- Embeds class `EuroParl`. -/
def EuroParl : Dataset :=
  ⟨"europarl",
   ["https://the-eye.eu/public/AI/pile_preliminary_components/EuroParliamentProceedings_1996_2011.jsonl.zst"],
   none⟩

/-- Embeds class `FreeLaw`. -/
def FreeLaw : Dataset :=
  ⟨"freelaw",
   ["https://the-eye.eu/public/AI/pile_preliminary_components/FreeLaw_Opinions.jsonl.zst"],
   none⟩

/-- Embeds class `NiH`. -/
def NiH : Dataset :=
  ⟨"nih",
   ["https://the-eye.eu/public/AI/pile_preliminary_components/NIH_ExPORTER_awarded_grant_text.jsonl.zst"],
   none⟩

/-- Embeds class `PubMed`. -/
def PubMed : Dataset :=
  ⟨"pubmed",
   ["https://the-eye.eu/public/AI/pile_preliminary_components/PMC_extracts.tar.gz"],
   none⟩

/-- Embeds class `Books1`. -/
def Books1 : Dataset :=
  ⟨"books1",
   ["https://the-eye.eu/public/AI/pile_preliminary_components/books1.tar.gz"],
   none⟩

/-- Embeds class `Books3`. -/
def Books3 : Dataset :=
  ⟨"books3",
   ["https://the-eye.eu/public/AI/pile_preliminary_components/books3.tar.gz"],
   none⟩

/-- Embeds class `HackerNews`. -/
def HackerNews : Dataset :=
  ⟨"hackernews",
   ["https://the-eye.eu/public/AI/pile_preliminary_components/hn.tar.gz"],
   none⟩

/-- Embeds class `OpenWebText2`. -/
def OpenWebText2 : Dataset :=
  ⟨"openwebtext2",
   ["https://the-eye.eu/public/AI/pile_preliminary_components/openwebtext2.jsonl.zst.tar"],
   none⟩

/-- Embeds class `StackExchange`. -/
def StackExchange : Dataset :=
  ⟨"stackexchange",
   ["https://the-eye.eu/public/AI/pile_preliminary_components/stackexchange_dataset.tar"],
   none⟩

/-- Embeds class `UbuntuIRC`. -/
def UbuntuIRC : Dataset :=
  ⟨"ubuntu_irc",
   ["https://the-eye.eu/public/AI/pile_preliminary_components/ubuntu_irc_until_2020_9_1.jsonl.zst"],
   none⟩

/-- Embeds class `YoutubeSubtitles`. -/
def YoutubeSubtitles : Dataset :=
  ⟨"youtube_subtitles",
   ["https://the-eye.eu/public/AI/pile_preliminary_components/yt_subs.jsonl.zst"],
   none⟩

/-- Embeds the `DATA_DOWNLOADERS` dict, in its insertion order
(Python 3.7+ dicts preserve insertion order). -/
def DATA_DOWNLOADERS : List (String × Dataset) :=
  [("enron", Enron),
   ("pile_subset", PileSubset),
   ("pile", Pile),
   ("github", Github),
   ("arxiv", ArXiv),
   ("europarl", EuroParl),
   ("freelaw", FreeLaw),
   ("nih", NiH),
   ("pubmed", PubMed),
   ("books1", Books1),
   ("books3", Books3),
   ("hackernews", HackerNews),
   ("openwebtext2", OpenWebText2),
   ("stackexchange", StackExchange),
   ("ubuntu_irc", UbuntuIRC),
   ("youtube_subtitles", YoutubeSubtitles)]

/-- Embeds `DATA_DOWNLOADERS.get(k, None)`. -/
def lookupRegistry (k : String) : Option Dataset :=
  (DATA_DOWNLOADERS.find? (fun p => p.1 == k)).map (fun p => p.2)

/-- Embeds `list(DATA_DOWNLOADERS.keys())`. -/
def registryKeys : List String := DATA_DOWNLOADERS.map (fun p => p.1)

/-- A fully constructed `DataDownloader` instance: the subclass data
plus the five fields `__init__` stores. -/
structure DataDownloader where
  dataset : Dataset
  tokenizerType : String
  mergeFile : String
  vocabFile : String
  dataDir : String
  numWorkers : Nat
  deriving DecidableEq, Repr

/-- Embeds `DataDownloader.__init__`.  The Python `assert vocab_file is
not None, 'No vocab file provided'` (reached when no vocab file is given
and the tokenizer type is neither the default nor `"HFGPT2Tokenizer"`)
always fails there, embedded as the `Except.error`. -/
def DataDownloader.init (ds : Dataset)
    (tokenizerType mergeFile vocabFile dataDir : Option String)
    (numWorkers : Nat) : Except String DataDownloader :=
  let tt := tokenizerType.getD DEFAULT_TOKENIZER_TYPE
  let mf := mergeFile.getD GPT2_MERGE_FP
  let vf : Except String String :=
    match vocabFile with
    | some v => Except.ok v
    | none =>
      if tt = DEFAULT_TOKENIZER_TYPE then Except.ok GPT2_VOCAB_FP
      else if tt = "HFGPT2Tokenizer" then Except.ok "gpt2"
      else Except.error "No vocab file provided"
  let dd := dataDir.getD DEFAULT_DATA_DIR
  vf.map (fun v => ⟨ds, tt, mf, v, dd, numWorkers⟩)

/-- Embeds the `base_dir` property. -/
def DataDownloader.baseDir (d : DataDownloader) : String := d.dataDir

/-- Embeds `DataDownloader.exists`: `os.path.isdir(f"{base_dir}/{name}")`,
with the filesystem supplied as the predicate `isDir`. -/
def DataDownloader.existsDir (d : DataDownloader) (isDir : String → Bool) : Bool :=
  isDir (d.baseDir ++ "/" ++ d.dataset.name)

/-- Embeds `DataDownloader.download`: `os.makedirs(join(base_dir, name),
exist_ok=True)`, then one `wget` per URL in order, each saving to
`join(base_dir, name, basename(url))`. -/
def DataDownloader.download (d : DataDownloader) : List Effect :=
  Effect.makedirs (joinPath d.baseDir d.dataset.name) true ::
    d.dataset.urls.map (fun url =>
      Effect.fetch url (joinPath (joinPath d.baseDir d.dataset.name) (basename url)))

/-- Embeds the command string built by `DataDownloader.tokenize`.  The
Python source is a single f-string literal with backslash line
continuations: each continuation removes the backslash and newline but
keeps the one space before the backslash and the twelve spaces of
indentation of the next line, hence the thirteen-space runs here. -/
def DataDownloader.tokenizeCmd (d : DataDownloader) : String :=
  let parentFolder := joinPath d.baseDir d.dataset.name
  let jsonlFilepath := strJoin ","
    (d.dataset.urls.map (fun url => joinPath parentFolder (basename url)))
  let cmd := "python tools/preprocess_data.py             --input "
    ++ jsonlFilepath
    ++ "             --output-prefix " ++ parentFolder ++ "/" ++ d.dataset.name
    ++ "             --vocab " ++ d.vocabFile
    ++ "             --dataset-impl mmap"
    ++ "             --tokenizer-type " ++ d.tokenizerType
    ++ "             --merge-file " ++ d.mergeFile
    ++ "             --append-eod"
    ++ "             --workers " ++ toString d.numWorkers ++ " "
  match d.dataset.numDocs with
  | some n => cmd ++ "--num-docs " ++ toString n
  | none => cmd

/-- Embeds `DataDownloader.tokenize`: one `os.system` call running the
built command. -/
def DataDownloader.tokenize (d : DataDownloader) : List Effect :=
  [Effect.system d.tokenizeCmd]

/-- Embeds `DataDownloader.prepare`: `if not self.exists(): download();
tokenize()`. -/
def DataDownloader.prepare (d : DataDownloader) (isDir : String → Bool) : List Effect :=
  if d.existsDir isDir then [] else d.download ++ d.tokenize

/-- Embeds `maybe_download_gpt2_tokenizer_data`, with `os.path.isfile`
supplied as the predicate `isFile`. -/
def maybe_download_gpt2_tokenizer_data (tokenizerType : Option String)
    (isFile : String → Bool) : List Effect :=
  if tokenizerType = none ∨ tokenizerType = some DEFAULT_TOKENIZER_TYPE then
    (if ! isFile GPT2_VOCAB_FP then [Effect.fetch GPT2_VOCAB_URL GPT2_VOCAB_FP] else []) ++
    (if ! isFile GPT2_MERGE_FP then [Effect.fetch GPT2_MERGE_URL GPT2_MERGE_FP] else [])
  else []

/-- A single-quote character, used by the Python `repr` of strings. -/
def squote : String := ⟨[Char.ofNat 39]⟩

/-- Embeds the Python `repr` of a list of strings, e.g.
`['enron', 'pile_subset', ...]`. -/
def pyListRepr (xs : List String) : String :=
  "[" ++ strJoin ", " (xs.map (fun s => squote ++ s ++ squote)) ++ "]"

/-- Embeds the `NotImplementedError` message of `prepare_dataset`:
`f'Dataset "{dataset_name}" not recognized - please choose from
{list(DATA_DOWNLOADERS.keys())}'`. -/
def unrecognizedMsg (datasetName : String) : String :=
  "Dataset \"" ++ datasetName ++ "\" not recognized - please choose from "
    ++ pyListRepr registryKeys

/-- Embeds `prepare_dataset`: resolves the default data dir, makes the
data directory, maybe fetches the GPT2 tokenizer assets, resolves the
lowercased name against the registry, then constructs the downloader
and runs `prepare()`.  Returns the effect trace together with the
normal or exceptional outcome. -/
def prepare_dataset (datasetName : String)
    (tokenizerType dataDir vocabFile mergeFile : Option String)
    (numWorkers : Nat) (isDir isFile : String → Bool) :
    List Effect × Except String Unit :=
  let dd := dataDir.getD DEFAULT_DATA_DIR
  let pre := Effect.makedirs dd true :: maybe_download_gpt2_tokenizer_data tokenizerType isFile
  match lookupRegistry (strToLower datasetName) with
  | none => (pre, Except.error (unrecognizedMsg datasetName))
  | some ds =>
    match DataDownloader.init ds tokenizerType mergeFile vocabFile (some dd) numWorkers with
    | Except.error e => (pre, Except.error e)
    | Except.ok d => (pre ++ d.prepare isDir, Except.ok ())

/-- Whether `pat` occurs at the start of `s` (character lists). -/
def leadsWith : List Char → List Char → Bool
  | [], _ => true
  | _ :: _, [] => false
  | p :: ps, c :: cs => p == c && leadsWith ps cs

/-- Whether `pat` occurs as a contiguous run anywhere in `s`. -/
def hasSub : List Char → List Char → Bool
  | [], pat => pat.isEmpty
  | c :: rest, pat => leadsWith pat (c :: rest) || hasSub rest pat

/-- Substring test on strings, via their character lists. -/
def strContains (s pat : String) : Bool := hasSub s.data pat.data

/-- The `Enron` downloader instance as built by `__init__` with every
optional argument left at its default. -/
def enronDefault : DataDownloader :=
  ⟨Enron, DEFAULT_TOKENIZER_TYPE, GPT2_MERGE_FP, GPT2_VOCAB_FP, DEFAULT_DATA_DIR, 1⟩

theorem leadsWith_self_append (p t : List Char) : leadsWith p (p ++ t) = true := by
  induction p with
  | nil => rfl
  | cons c cs ih => simp [leadsWith, ih]

theorem hasSub_nil_pat (s : List Char) : hasSub s [] = true := by
  cases s with
  | nil => rfl
  | cons c cs => simp [hasSub, leadsWith]

theorem hasSub_append_left (a s pat : List Char) (h : hasSub s pat = true) :
    hasSub (a ++ s) pat = true := by
  induction a with
  | nil => simpa using h
  | cons x xs ih => simp [hasSub, ih]

theorem hasSub_self_append (pat b : List Char) : hasSub (pat ++ b) pat = true := by
  cases pat with
  | nil => simpa using hasSub_nil_pat b
  | cons p ps =>
    have h := leadsWith_self_append (p :: ps) b
    simp [hasSub]
    left
    simpa [leadsWith] using h

theorem strContains_append_right (x y pat : String) (h : strContains y pat = true) :
    strContains (x ++ y) pat = true := by
  unfold strContains at h ⊢
  rw [String.data_append]
  exact hasSub_append_left _ _ _ h

theorem lookupRegistry_isSome_iff (k : String) :
    (lookupRegistry k).isSome = true ↔ k ∈ registryKeys := by
  simp [lookupRegistry, registryKeys, List.find?_isSome, List.mem_map]

theorem lookupRegistry_eq_none_of_nmem (k : String) (h : k ∉ registryKeys) :
    lookupRegistry k = none := by
  cases hl : lookupRegistry k with
  | none => rfl
  | some ds =>
    exact absurd ((lookupRegistry_isSome_iff k).1 (by simp [hl])) h

theorem vocabMsg_ne_unrecognizedMsg (name : String) :
    ("No vocab file provided" : String) ≠ unrecognizedMsg name := by
  intro h
  have h2 : ("No vocab file provided" : String).data = (unrecognizedMsg name).data := by
    rw [h]
  rw [unrecognizedMsg] at h2
  simp only [String.data_append] at h2
  simp only [List.cons_append, List.append_assoc] at h2
  injection h2 with h3 _
  exact absurd h3 (by decide)

theorem keys_in_pyListRepr :
    ∀ k ∈ registryKeys, strContains (pyListRepr registryKeys) k = true := by decide

theorem unrecognizedMsg_lists_keys (name : String) :
    ∀ k ∈ registryKeys, strContains (unrecognizedMsg name) k = true := by
  intro k hk
  unfold unrecognizedMsg
  exact strContains_append_right _ _ _ (keys_in_pyListRepr k hk)

theorem leadsWith_extend (p : List Char) : ∀ s t, leadsWith p s = true →
    leadsWith p (s ++ t) = true := by
  induction p with
  | nil => intro s t _; rfl
  | cons c cs ih =>
    intro s t h
    cases s with
    | nil => simp [leadsWith] at h
    | cons x xs =>
      simp only [leadsWith, Bool.and_eq_true] at h
      simp [leadsWith, h.1, ih xs t h.2]

theorem hasSub_append_right (s t pat : List Char) (h : hasSub s pat = true) :
    hasSub (s ++ t) pat = true := by
  induction s with
  | nil =>
    simp only [hasSub, List.isEmpty_iff] at h
    subst h
    simpa using hasSub_nil_pat t
  | cons c cs ih =>
    simp only [hasSub, Bool.or_eq_true] at h
    rcases h with h | h
    · simpa [hasSub] using Or.inl (leadsWith_extend pat (c :: cs) t h)
    · simp [hasSub, ih h]

theorem strContains_append_left (x y pat : String) (h : strContains x pat = true) :
    strContains (x ++ y) pat = true := by
  unfold strContains at h ⊢
  rw [String.data_append]
  exact hasSub_append_right _ _ _ h

theorem init_error_msg (ds : Dataset) (tt mf vf dd : Option String) (nw : Nat)
    (e : String)
    (h : DataDownloader.init ds tt mf vf dd nw = Except.error e) :
    e = "No vocab file provided" := by
  unfold DataDownloader.init at h
  cases vf with
  | some v => simp [Except.map] at h
  | none =>
    by_cases h1 : (tt.getD DEFAULT_TOKENIZER_TYPE) = DEFAULT_TOKENIZER_TYPE
    · simp [h1, Except.map] at h
    · by_cases h2 : (tt.getD DEFAULT_TOKENIZER_TYPE) = "HFGPT2Tokenizer"
      · simp [h1, h2, Except.map,
          show ("HFGPT2Tokenizer" : String) ≠ DEFAULT_TOKENIZER_TYPE from by decide] at h
      · simp [h1, h2, Except.map] at h
        exact h.symm

theorem tokenizeCmd_has_append_eod (d : DataDownloader) :
    strContains d.tokenizeCmd "--append-eod" = true := by
  have hlit : strContains "             --append-eod" "--append-eod" = true := by decide
  cases hnd : d.dataset.numDocs with
  | none =>
    simp only [DataDownloader.tokenizeCmd, hnd]
    apply strContains_append_left
    apply strContains_append_left
    apply strContains_append_left
    exact strContains_append_right _ _ _ hlit
  | some n =>
    simp only [DataDownloader.tokenizeCmd, hnd]
    apply strContains_append_left
    apply strContains_append_left
    apply strContains_append_left
    apply strContains_append_left
    apply strContains_append_left
    exact strContains_append_right _ _ _ hlit

/-- Claim C1: `prepare()` issues no effect at all (in particular no fetch
and no tokenize invocation) when `exists()` is true, and issues exactly
the `download()` effects followed by the `tokenize()` effects when
`exists()` is false. -/
theorem prepare_runs_download_then_tokenize_iff_absent
    (d : DataDownloader) (isDir : String → Bool) :
    (d.existsDir isDir = true → d.prepare isDir = []) ∧
    (d.existsDir isDir = false → d.prepare isDir = d.download ++ d.tokenize) := by
  constructor <;> intro h <;> simp [DataDownloader.prepare, h]

/-- Witness for C1 at the default-constructed Enron downloader, once with
the dataset directory present and once with it absent. -/
theorem prepare_runs_download_then_tokenize_iff_absent_witness :
    enronDefault.prepare (fun _ => true) = [] ∧
    enronDefault.prepare (fun _ => false)
      = enronDefault.download ++ enronDefault.tokenize :=
  ⟨(prepare_runs_download_then_tokenize_iff_absent enronDefault (fun _ => true)).1 rfl,
   (prepare_runs_download_then_tokenize_iff_absent enronDefault (fun _ => false)).2 rfl⟩

/-- Claim C2: when the lowercased name is not a registry key,
`prepare_dataset` ends in the configuration error whose message lists all
registry keys; when it is a key, that error is not raised and the
downloader built from the resolved dataset is prepared. -/
theorem prepare_dataset_name_resolution
    (name : String) (tt dd vf mf : Option String) (nw : Nat)
    (isDir isFile : String → Bool) :
    (strToLower name ∉ registryKeys →
      (prepare_dataset name tt dd vf mf nw isDir isFile).2
          = Except.error (unrecognizedMsg name) ∧
      ∀ k ∈ registryKeys, strContains (unrecognizedMsg name) k = true) ∧
    (strToLower name ∈ registryKeys →
      (prepare_dataset name tt dd vf mf nw isDir isFile).2
          ≠ Except.error (unrecognizedMsg name) ∧
      ∀ ds d, lookupRegistry (strToLower name) = some ds →
        DataDownloader.init ds tt mf vf (some (dd.getD DEFAULT_DATA_DIR)) nw
            = Except.ok d →
        (prepare_dataset name tt dd vf mf nw isDir isFile).2 = Except.ok () ∧
        (prepare_dataset name tt dd vf mf nw isDir isFile).1
          = (Effect.makedirs (dd.getD DEFAULT_DATA_DIR) true
              :: maybe_download_gpt2_tokenizer_data tt isFile) ++ d.prepare isDir) := by
  constructor
  · intro h
    have hnone := lookupRegistry_eq_none_of_nmem _ h
    exact ⟨by simp [prepare_dataset, hnone], unrecognizedMsg_lists_keys name⟩
  · intro h
    have hsome := (lookupRegistry_isSome_iff _).2 h
    obtain ⟨ds0, hds0⟩ := Option.isSome_iff_exists.1 hsome
    constructor
    · cases hinit : DataDownloader.init ds0 tt mf vf (some (dd.getD DEFAULT_DATA_DIR)) nw with
      | ok d => simp [prepare_dataset, hds0, hinit]
      | error e =>
        have he := init_error_msg _ _ _ _ _ _ _ hinit
        subst he
        simp only [prepare_dataset, hds0, hinit]
        intro hcontra
        exact vocabMsg_ne_unrecognizedMsg name (by injection hcontra)
    · intro ds d hds hinit
      rw [hds0] at hds
      injection hds with hds
      subst hds
      simp [prepare_dataset, hds0, hinit]

/-- Witness for C2: the unknown name raises the listing error, and the
uppercase spelling of a registered name is prepared without it. -/
theorem prepare_dataset_name_resolution_witness :
    (prepare_dataset "not_a_real_dataset" none none none none 1
        (fun _ => true) (fun _ => true)).2
      = Except.error (unrecognizedMsg "not_a_real_dataset") ∧
    (prepare_dataset "ENRON" none none none none 1
        (fun _ => true) (fun _ => true)).2 = Except.ok () :=
  ⟨((prepare_dataset_name_resolution "not_a_real_dataset" none none none none 1
      (fun _ => true) (fun _ => true)).1 (by decide)).1,
   (((prepare_dataset_name_resolution "ENRON" none none none none 1
      (fun _ => true) (fun _ => true)).2 (by decide)).2 Enron enronDefault
      (by decide) rfl).1⟩

/-- Claim C3: every stored registry key is already lowercase, and the
entry point resolution (lowercase, then index) maps the uppercased and
the lowercased spelling of every key to the same configuration. -/
theorem registry_lookup_case_insensitive :
    ∀ p ∈ DATA_DOWNLOADERS,
      strToLower p.1 = p.1 ∧
      lookupRegistry (strToLower (strToUpper p.1))
        = lookupRegistry (strToLower (strToLower p.1)) ∧
      lookupRegistry (strToLower (strToUpper p.1)) = some p.2 := by decide

/-- Witness for C3 at the key `"enron"`. -/
theorem registry_lookup_case_insensitive_witness :
    ("enron", Enron) ∈ DATA_DOWNLOADERS ∧
    (strToLower "enron" = "enron" ∧
     lookupRegistry (strToLower (strToUpper "enron"))
        = lookupRegistry (strToLower (strToLower "enron")) ∧
     lookupRegistry (strToLower (strToUpper "enron")) = some Enron) :=
  ⟨by decide, registry_lookup_case_insensitive ("enron", Enron) (by decide)⟩

set_option maxRecDepth 400000 in
/-- Claim C4: every tokenize command line contains `--append-eod`; and
for every registered downloader built with default arguments, the
command contains `--num-docs N` with `N` the dataset's document count
exactly when that count is known, and does not contain `--num-docs` at
all otherwise. -/
theorem tokenize_cmd_flags :
    (∀ d : DataDownloader, strContains d.tokenizeCmd "--append-eod" = true) ∧
    (∀ p ∈ DATA_DOWNLOADERS,
      (match DataDownloader.init p.2 none none none none 1 with
        | Except.ok d =>
            strContains d.tokenizeCmd "--append-eod" &&
              (match p.2.numDocs with
                | some n => strContains d.tokenizeCmd ("--num-docs " ++ toString n)
                | none => ! strContains d.tokenizeCmd "--num-docs")
        | Except.error _ => false) = true) :=
  ⟨tokenizeCmd_has_append_eod, by decide⟩

/-- Witness for C4 at the registered entry for `"enron"`. -/
theorem tokenize_cmd_flags_witness :
    ("enron", Enron) ∈ DATA_DOWNLOADERS ∧
    (match DataDownloader.init Enron none none none none 1 with
      | Except.ok d =>
          strContains d.tokenizeCmd "--append-eod" &&
            (match Enron.numDocs with
              | some n => strContains d.tokenizeCmd ("--num-docs " ++ toString n)
              | none => ! strContains d.tokenizeCmd "--num-docs")
      | Except.error _ => false) = true :=
  ⟨by decide, tokenize_cmd_flags.2 ("enron", Enron) (by decide)⟩

/-- Claim C5: `download()` first creates the dataset directory (with
`exist_ok=True`), then issues one fetch per URL in listed order, each
saving to `join(base_dir, name, basename(url))`. -/
theorem download_creates_dir_then_fetches_in_order (d : DataDownloader) :
    d.download.length = d.dataset.urls.length + 1 ∧
    d.download.head? = some (Effect.makedirs (joinPath d.baseDir d.dataset.name) true) ∧
    ∀ i (h : i < d.dataset.urls.length),
      d.download[i + 1]? = some (Effect.fetch d.dataset.urls[i]
        (joinPath (joinPath d.baseDir d.dataset.name) (basename d.dataset.urls[i]))) := by
  refine ⟨by simp [DataDownloader.download], by simp [DataDownloader.download], ?_⟩
  intro i h
  simp [DataDownloader.download, List.getElem?_map, List.getElem?_eq_getElem h]

/-- Witness for C5 at the default Enron downloader and its first URL. -/
theorem download_creates_dir_then_fetches_in_order_witness :
    0 < enronDefault.dataset.urls.length ∧
    enronDefault.download[0 + 1]? = some (Effect.fetch
      "http://eaidata.bmk.sh/data/enron_emails.jsonl.zst"
      (joinPath (joinPath enronDefault.baseDir enronDefault.dataset.name)
        (basename "http://eaidata.bmk.sh/data/enron_emails.jsonl.zst"))) :=
  ⟨by decide, (download_creates_dir_then_fetches_in_order enronDefault).2.2 0 (by decide)⟩

/-- Claim C6 counterexample: `"HFGPT2Tokenizer"` is a non-default
tokenizer type, yet constructing a downloader with it and no vocab file
succeeds instead of failing with the precondition error. -/
theorem init_hfgpt2_no_vocab_succeeds :
    ("HFGPT2Tokenizer" : String) ≠ DEFAULT_TOKENIZER_TYPE ∧
    DataDownloader.init Enron (some "HFGPT2Tokenizer") none none none 1
      = Except.ok ⟨Enron, "HFGPT2Tokenizer", GPT2_MERGE_FP, "gpt2", DEFAULT_DATA_DIR, 1⟩ :=
  ⟨by decide, rfl⟩

/-- Claim C6 as amended: construction with no vocab file and a tokenizer
type other than the default and other than `"HFGPT2Tokenizer"` fails
immediately with the precondition error. -/
theorem init_missing_vocab_fails (ds : Dataset) (tt : String)
    (mf dd : Option String) (nw : Nat)
    (h1 : tt ≠ DEFAULT_TOKENIZER_TYPE) (h2 : tt ≠ "HFGPT2Tokenizer") :
    DataDownloader.init ds (some tt) mf none dd nw
      = Except.error "No vocab file provided" := by
  simp [DataDownloader.init, h1, h2, Except.map,
    show ("HFGPT2Tokenizer" : String) ≠ DEFAULT_TOKENIZER_TYPE from by decide]

/-- Witness for the amended C6 at the tokenizer type
`"CharLevelTokenizer"`. -/
theorem init_missing_vocab_fails_witness :
    ("CharLevelTokenizer" : String) ≠ DEFAULT_TOKENIZER_TYPE ∧
    ("CharLevelTokenizer" : String) ≠ "HFGPT2Tokenizer" ∧
    DataDownloader.init Enron (some "CharLevelTokenizer") none none none 1
      = Except.error "No vocab file provided" :=
  ⟨by decide, by decide,
   init_missing_vocab_fails Enron "CharLevelTokenizer" none none 1
     (by decide) (by decide)⟩

/-- Claim C7: the GPT2 tokenizer-asset step fetches the vocab file iff it
is absent and the merge file iff it is absent (for the default or unset
tokenizer type), is a no-op when both are present, and issues nothing for
any other tokenizer type. -/
theorem maybe_download_fetches_only_absent
    (tt : Option String) (isFile : String → Bool) :
    (Effect.fetch GPT2_VOCAB_URL GPT2_VOCAB_FP
        ∈ maybe_download_gpt2_tokenizer_data tt isFile
      ↔ ((tt = none ∨ tt = some DEFAULT_TOKENIZER_TYPE)
          ∧ isFile GPT2_VOCAB_FP = false)) ∧
    (Effect.fetch GPT2_MERGE_URL GPT2_MERGE_FP
        ∈ maybe_download_gpt2_tokenizer_data tt isFile
      ↔ ((tt = none ∨ tt = some DEFAULT_TOKENIZER_TYPE)
          ∧ isFile GPT2_MERGE_FP = false)) ∧
    (isFile GPT2_VOCAB_FP = true → isFile GPT2_MERGE_FP = true →
        maybe_download_gpt2_tokenizer_data tt isFile = []) ∧
    (tt ≠ none → tt ≠ some DEFAULT_TOKENIZER_TYPE →
        maybe_download_gpt2_tokenizer_data tt isFile = []) := by
  rcases tt with _ | t
  · cases hv : isFile GPT2_VOCAB_FP <;> cases hm : isFile GPT2_MERGE_FP <;>
      simp [maybe_download_gpt2_tokenizer_data, hv, hm] <;> decide
  · by_cases ht : t = DEFAULT_TOKENIZER_TYPE
    · subst ht
      cases hv : isFile GPT2_VOCAB_FP <;> cases hm : isFile GPT2_MERGE_FP <;>
        simp [maybe_download_gpt2_tokenizer_data, hv, hm] <;> decide
    · simp [maybe_download_gpt2_tokenizer_data, ht]

/-- Witness for C7: no-op both on a filesystem where both assets exist
and for a non-default tokenizer type. -/
theorem maybe_download_fetches_only_absent_witness :
    maybe_download_gpt2_tokenizer_data (some DEFAULT_TOKENIZER_TYPE)
      (fun _ => true) = [] ∧
    maybe_download_gpt2_tokenizer_data (some "HFGPT2Tokenizer")
      (fun _ => true) = [] :=
  ⟨(maybe_download_fetches_only_absent (some DEFAULT_TOKENIZER_TYPE)
      (fun _ => true)).2.2.1 rfl rfl,
   (maybe_download_fetches_only_absent (some "HFGPT2Tokenizer")
      (fun _ => true)).2.2.2 (by decide) (by decide)⟩

/-- Claim C8: for the registry entry `"enron"`, `download()` creates the
directory `<data_dir>/enron` and issues exactly one fetch, whose
destination file is named `enron_emails.jsonl.zst`. -/
theorem enron_download_single_fetch :
    lookupRegistry "enron" = some Enron ∧
    ∀ (dd : String) (d : DataDownloader),
      DataDownloader.init Enron none none none (some dd) 1 = Except.ok d →
      d.download =
        [Effect.makedirs (joinPath dd "enron") true,
         Effect.fetch "http://eaidata.bmk.sh/data/enron_emails.jsonl.zst"
           (joinPath (joinPath dd "enron") "enron_emails.jsonl.zst")] ∧
      (d.download.filter Effect.isFetch).length = 1 ∧
      basename "http://eaidata.bmk.sh/data/enron_emails.jsonl.zst"
        = "enron_emails.jsonl.zst" := by
  refine ⟨by decide, ?_⟩
  intro dd d hd
  have hred : DataDownloader.init Enron none none none (some dd) 1
      = Except.ok ⟨Enron, DEFAULT_TOKENIZER_TYPE, GPT2_MERGE_FP, GPT2_VOCAB_FP, dd, 1⟩ := rfl
  rw [hred] at hd
  injection hd with hd
  subst hd
  refine ⟨?_, by simp [DataDownloader.download, Effect.isFetch, Enron], by decide⟩
  simp [DataDownloader.download, DataDownloader.baseDir, Enron,
    show basename "http://eaidata.bmk.sh/data/enron_emails.jsonl.zst"
        = "enron_emails.jsonl.zst" from by decide]

/-- Witness for C8 at the default data directory. -/
theorem enron_download_single_fetch_witness :
    DataDownloader.init Enron none none none (some "./data") 1
        = Except.ok enronDefault ∧
    enronDefault.download =
      [Effect.makedirs (joinPath "./data" "enron") true,
       Effect.fetch "http://eaidata.bmk.sh/data/enron_emails.jsonl.zst"
         (joinPath (joinPath "./data" "enron") "enron_emails.jsonl.zst")] :=
  ⟨rfl,
   (enron_download_single_fetch.2 "./data" enronDefault rfl).1⟩

/-- Claim C9: `prepare_dataset` emits the data-directory creation and the
tokenizer-asset fetch step before resolving the name, so those side
effects occur even on a run that ends with the unrecognized-dataset
error. -/
theorem prepare_dataset_side_effects_precede_resolution
    (name : String) (tt dd vf mf : Option String) (nw : Nat)
    (isDir isFile : String → Bool) :
    (∃ rest, (prepare_dataset name tt dd vf mf nw isDir isFile).1
        = Effect.makedirs (dd.getD DEFAULT_DATA_DIR) true
            :: (maybe_download_gpt2_tokenizer_data tt isFile ++ rest)) ∧
    (strToLower name ∉ registryKeys →
      (prepare_dataset name tt dd vf mf nw isDir isFile).1
          = Effect.makedirs (dd.getD DEFAULT_DATA_DIR) true
              :: maybe_download_gpt2_tokenizer_data tt isFile ∧
      (prepare_dataset name tt dd vf mf nw isDir isFile).2
          = Except.error (unrecognizedMsg name)) := by
  constructor
  · cases hl : lookupRegistry (strToLower name) with
    | none => exact ⟨[], by simp [prepare_dataset, hl]⟩
    | some ds =>
      cases hinit : DataDownloader.init ds tt mf vf
          (some (dd.getD DEFAULT_DATA_DIR)) nw with
      | error e => exact ⟨[], by simp [prepare_dataset, hl, hinit]⟩
      | ok d => exact ⟨d.prepare isDir, by simp [prepare_dataset, hl, hinit]⟩
  · intro h
    have hnone := lookupRegistry_eq_none_of_nmem _ h
    exact ⟨by simp [prepare_dataset, hnone], by simp [prepare_dataset, hnone]⟩

/-- Witness for C9 at the unknown name `"not_a_real_dataset"`. -/
theorem prepare_dataset_side_effects_precede_resolution_witness :
    (prepare_dataset "not_a_real_dataset" none none none none 1
        (fun _ => true) (fun _ => true)).1
      = Effect.makedirs "./data" true
          :: maybe_download_gpt2_tokenizer_data none (fun _ => true) ∧
    (prepare_dataset "not_a_real_dataset" none none none none 1
        (fun _ => true) (fun _ => true)).2
      = Except.error (unrecognizedMsg "not_a_real_dataset") :=
  (prepare_dataset_side_effects_precede_resolution "not_a_real_dataset"
    none none none none 1 (fun _ => true) (fun _ => true)).2 (by decide)

/-- Claim C10: constructing with tokenizer type `"HFGPT2Tokenizer"` and
no vocab file succeeds, the vocab file defaulting to the literal string
`"gpt2"`, and the tokenizer-asset fetch step issues nothing for this
tokenizer type. -/
theorem hfgpt2_defaults_to_gpt2_and_fetches_nothing (ds : Dataset)
    (isFile : String → Bool) :
    (∃ d, DataDownloader.init ds (some "HFGPT2Tokenizer") none none none 1
        = Except.ok d ∧ d.vocabFile = "gpt2") ∧
    maybe_download_gpt2_tokenizer_data (some "HFGPT2Tokenizer") isFile = [] := by
  constructor
  · exact ⟨⟨ds, "HFGPT2Tokenizer", GPT2_MERGE_FP, "gpt2", DEFAULT_DATA_DIR, 1⟩, rfl, rfl⟩
  · simp [maybe_download_gpt2_tokenizer_data,
      show ("HFGPT2Tokenizer" : String) ≠ DEFAULT_TOKENIZER_TYPE from by decide]

end Corpora
